import Mathlib

/-!
# Verification of the between-the-lines scraper scripts

Shallow embedding of the Python sources
`articles/myfyf-10x-rule/imdb_scraper.py`,
`articles/pay-to-lose/scrape.py` and
`articles/prem-home-invasion/merge_files.py`, together with theorems
checking the specification's claims against them.

External collaborators (the HTTP session, the headless browser, the
pandas CSV reader and the `strptime`-style date parsers) are modelled as
oracle parameters: functions supplied to the embedded code that say what
the outside world returns for each request.  Everything the scripts
themselves do — the retry loop, the extraction conditionals, the sentinel
arithmetic, the format-selection heuristic, the merge pipeline — is
translated directly from the source.
-/

set_option autoImplicit false

namespace BetweenTheLines

/-! ## The resilient fetch loop (`IMDBBoxOfficeScraper.get_page`)

```python
def get_page(self, url, max_retries=3):
    for attempt in range(max_retries):
        try:
            response = self.session.get(url, timeout=10)
            response.raise_for_status()
            return response
        except requests.RequestException as e:
            logger.warning(...)
            if attempt < max_retries - 1:
                time.sleep(2 ** attempt)  # Exponential backoff
            else:
                logger.error(...)
                return None
```

The HTTP session is the oracle `fetch : Nat → Option α`: `fetch i` is the
outcome of attempt number `i` (0-indexed); `some payload` is a response
that passed `raise_for_status`, `none` is a raised `RequestException`.
The function returns the result, the number of attempts performed, and
the list of `time.sleep` durations in order. -/

/-- One pass of the `for attempt in range(max_retries)` loop, at absolute
attempt index `attempt` with `remaining` loop iterations left
(`remaining = max_retries - attempt`).  The `remaining = 0` equation is the
loop falling through, which in Python returns `None` implicitly. -/
def getPageLoop {α : Type} (fetch : Nat → Option α) :
    Nat → Nat → Option α × Nat × List Nat
  | _, 0 => (none, 0, [])
  | attempt, remaining + 1 =>
    match fetch attempt with
    | some v => (some v, attempt + 1, [])
    | none =>
      -- `attempt < max_retries - 1` holds exactly when iterations remain
      if 0 < remaining then
        let rest := getPageLoop fetch (attempt + 1) remaining
        (rest.1, rest.2.1, 2 ^ attempt :: rest.2.2)
      else
        (none, attempt + 1, [])

/-- `get_page` with the session modelled as the per-attempt oracle `fetch`.
Returns `(result, attempts made, sleep durations)`. -/
def get_page {α : Type} (fetch : Nat → Option α) (max_retries : Nat) :
    Option α × Nat × List Nat :=
  getPageLoop fetch 0 max_retries

/-- When every attempt fails, the loop starting at `attempt` with
`remaining + 1` iterations left makes all remaining attempts, sleeping
`2^attempt, …, 2^(attempt + remaining - 1)` in between, and yields `none`. -/
theorem getPageLoop_all_fail {α : Type} (fetch : Nat → Option α)
    (hfail : ∀ i, fetch i = none) :
    ∀ remaining attempt,
      getPageLoop fetch attempt (remaining + 1) =
        (none, attempt + remaining + 1,
          (List.range' attempt remaining).map (fun i => 2 ^ i)) := by
  intro remaining
  induction remaining with
  | zero =>
    intro attempt
    simp [getPageLoop, hfail attempt]
  | succ r ih =>
    intro attempt
    have step : getPageLoop fetch attempt (r + 1 + 1) =
        ((getPageLoop fetch (attempt + 1) (r + 1)).1,
          (getPageLoop fetch (attempt + 1) (r + 1)).2.1,
          2 ^ attempt :: (getPageLoop fetch (attempt + 1) (r + 1)).2.2) := by
      conv_lhs => rw [getPageLoop]
      rw [hfail attempt]
      simp
    rw [step, ih (attempt + 1)]
    simp only [List.range'_succ, List.map_cons, Prod.mk.injEq]
    exact ⟨trivial, by omega, trivial⟩

/-- Unfolding step of the loop when the current attempt fails and further
iterations remain. -/
theorem getPageLoop_step_fail {α : Type} (fetch : Nat → Option α)
    (attempt r : Nat) (h0 : fetch attempt = none) :
    getPageLoop fetch attempt (r + 2) =
      ((getPageLoop fetch (attempt + 1) (r + 1)).1,
        (getPageLoop fetch (attempt + 1) (r + 1)).2.1,
        2 ^ attempt :: (getPageLoop fetch (attempt + 1) (r + 1)).2.2) := by
  conv_lhs => rw [getPageLoop]
  rw [h0]
  simp

/-- Unfolding step of the loop when the current attempt succeeds: the
response is returned at once, with no sleep. -/
theorem getPageLoop_step_success {α : Type} (fetch : Nat → Option α)
    (attempt r : Nat) (v : α) (h0 : fetch attempt = some v) :
    getPageLoop fetch attempt (r + 1) = (some v, attempt + 1, []) := by
  conv_lhs => rw [getPageLoop]
  rw [h0]

/-- If the first success is at offset `k` from the current attempt and at
least `k + 1` iterations remain, the loop returns that success after
`k + 1` total attempts, having slept only for the `k` failed attempts. -/
theorem getPageLoop_first_success {α : Type} (fetch : Nat → Option α) (v : α) :
    ∀ k attempt remaining, k < remaining →
      (∀ j, j < k → fetch (attempt + j) = none) →
      fetch (attempt + k) = some v →
      getPageLoop fetch attempt remaining =
        (some v, attempt + k + 1, (List.range' attempt k).map (fun i => 2 ^ i)) := by
  intro k
  induction k with
  | zero =>
    intro attempt remaining hk _ hsucc
    obtain ⟨r, rfl⟩ : ∃ r, remaining = r + 1 := ⟨remaining - 1, by omega⟩
    rw [getPageLoop_step_success fetch attempt r v (by simpa using hsucc)]
    simp
  | succ j ih =>
    intro attempt remaining hk hfail hsucc
    obtain ⟨m, rfl⟩ : ∃ m, remaining = m + 2 := ⟨remaining - 2, by omega⟩
    have h0 : fetch attempt = none := by simpa using hfail 0 (Nat.succ_pos j)
    rw [getPageLoop_step_fail fetch attempt m h0]
    have hsucc' : fetch (attempt + 1 + j) = some v := by
      rw [show attempt + 1 + j = attempt + (j + 1) from by omega]
      exact hsucc
    have hfail' : ∀ i, i < j → fetch (attempt + 1 + i) = none := fun i hi => by
      rw [show attempt + 1 + i = attempt + (i + 1) from by omega]
      exact hfail (i + 1) (by omega)
    rw [ih (attempt + 1) (m + 1) (by omega) hfail' hsucc']
    simp only [List.range'_succ, List.map_cons, Prod.mk.injEq]
    exact ⟨trivial, by omega, trivial⟩

/-- **C1.** For every positive `max_attempts = N` and every URL for which
the request fails on every attempt, `get_page` performs exactly `N`
attempts, sleeps `1, 2, 4, …, 2^(N-2)` time units between consecutive
attempts (no delay after the final attempt), and returns the failure
signal `None` to the caller. -/
theorem get_page_all_fail_exhausts {α : Type} (fetch : Nat → Option α)
    (N : Nat) (hN : 0 < N) (hfail : ∀ i, fetch i = none) :
    get_page fetch N =
      (none, N, (List.range (N - 1)).map (fun i => 2 ^ i)) := by
  obtain ⟨r, rfl⟩ : ∃ r, N = r + 1 := ⟨N - 1, by omega⟩
  rw [get_page, getPageLoop_all_fail fetch hfail r 0]
  simp [List.range_eq_range']

/-- Witness for C1: with three attempts that all fail, `get_page` makes 3
attempts, sleeps 1 then 2 time units, and returns `none`. -/
theorem get_page_all_fail_exhausts_witness :
    get_page (fun _ : Nat => (none : Option Unit)) 3 = (none, 3, [1, 2]) := by
  rw [get_page_all_fail_exhausts (fun _ : Nat => (none : Option Unit)) 3
    (by decide) (fun _ => rfl)]
  rfl

/-- **C2.** If the request succeeds at attempt index `k < N` (0-indexed)
after earlier failures, `get_page` returns the successful response
immediately after attempt `k`: `k + 1` attempts in total, with backoff
delays only for the `k` failed attempts and none afterwards. -/
theorem get_page_success_returns_immediately {α : Type}
    (fetch : Nat → Option α) (N k : Nat) (v : α) (hk : k < N)
    (hfail : ∀ j, j < k → fetch j = none) (hsucc : fetch k = some v) :
    get_page fetch N = (some v, k + 1, (List.range k).map (fun i => 2 ^ i)) := by
  rw [get_page, getPageLoop_first_success fetch v k 0 N hk
    (fun j hj => by simpa using hfail j hj) (by simpa using hsucc)]
  simp [List.range_eq_range']

/-- Witness for C2: failures at attempts 0 and 1, success at attempt 2,
with `max_retries = 5`: the response is returned after 3 attempts with
delays 1 and 2, and attempts 3 and 4 are never made. -/
theorem get_page_success_returns_immediately_witness :
    get_page (fun i : Nat => if i = 2 then some () else none) 5 =
      (some (), 3, [1, 2]) := by
  rw [get_page_success_returns_immediately
    (fun i : Nat => if i = 2 then some () else none) 5 2 ()
    (by decide) (fun j hj => by interval_cases j <;> rfl) (by rfl)]
  rfl

/-! ## Currency normalization

`IMDBBoxOfficeScraper.clean_currency` (imdb_scraper.py) and
`clean_money_value` (pay-to-lose/scrape.py).  Python's `int()` is modelled
by `pyInt`: surrounding whitespace ignored, optional sign, digits with
single underscores allowed between them; `none` where Python raises
`ValueError`. -/

/-- Python `str.strip()` / JS `trim()`: remove leading and trailing
whitespace from a character list. -/
def stripChars (cs : List Char) : List Char :=
  ((cs.dropWhile Char.isWhitespace).reverse.dropWhile Char.isWhitespace).reverse

/-- `str.strip()` on a `String`. -/
def strTrim (s : String) : String := String.mk (stripChars s.toList)

/-- The continuation `(["_"] digit)*` of a Python integer literal after its
first digit; `acc` is the value of the digits read so far.  A single
underscore may separate digits but may not trail or repeat. -/
def pyDigitsAux : Nat → List Char → Option Nat
  | acc, [] => some acc
  | acc, '_' :: c :: cs =>
    if c.isDigit then pyDigitsAux (acc * 10 + (c.toNat - 48)) cs else none
  | acc, c :: cs =>
    if c.isDigit then pyDigitsAux (acc * 10 + (c.toNat - 48)) cs else none

/-- The digit part of a Python integer literal: at least one digit, single
underscores allowed between digits. -/
def pyDigitPart : List Char → Option Nat
  | [] => none
  | c :: cs => if c.isDigit then pyDigitsAux (c.toNat - 48) cs else none

/-- Python `int(str)`: surrounding whitespace ignored, then an optional
sign followed by a digit part.  `none` models a raised `ValueError`.
(Digits restricted to ASCII, which is all the scripts ever feed it.) -/
def pyInt (cs : List Char) : Option Int :=
  match stripChars cs with
  | '+' :: rest => (pyDigitPart rest).map (fun n => (n : Int))
  | '-' :: rest => (pyDigitPart rest).map (fun n => -(n : Int))
  | rest => (pyDigitPart rest).map (fun n => (n : Int))

/-- The remainder of `clean_currency`'s input after `text.strip()` and
`re.sub(r'[,$\s]', '', ·)`: commas, dollar signs and whitespace removed. -/
def clean_currency_stripped (text : String) : List Char :=
  (stripChars text.toList).filter (fun c => !(c = ',' || c = '$' || c.isWhitespace))

/-- `IMDBBoxOfficeScraper.clean_currency`: falsy (empty) text maps to
`None`; otherwise strip `[,$\s]` and parse as `int`, `None` on
`ValueError`. -/
def clean_currency (text : String) : Option Int :=
  if text = "" then none
  else pyInt (clean_currency_stripped text)

/-- The remainder of `clean_money_value`'s input after
`.replace('£', '').replace(' ', '').replace(',', '')`. -/
def clean_money_stripped (money_str : String) : List Char :=
  ((money_str.toList.filter (fun c => c ≠ '£')).filter (fun c => c ≠ ' ')).filter
    (fun c => c ≠ ',')

/-- `clean_money_value` from `pay-to-lose/scrape.py`: falsy (empty) input
and `'N/A'` map to the sentinel `0`; otherwise drop `£`, spaces and commas
and parse as `int`, returning `0` on `ValueError`. -/
def clean_money_value (money_str : String) : Int :=
  if money_str = "" || money_str = "N/A" then 0
  else
    match pyInt (clean_money_stripped money_str) with
    | some n => n
    | none => 0

/-- **C5.** `clean_money_value` maps both `"£ 47,070,570"` and
`"£47,070,570"` to `47070570`, and maps `"N/A"` to the sentinel `0`. -/
theorem clean_money_value_examples :
    clean_money_value "£ 47,070,570" = 47070570 ∧
    clean_money_value "£47,070,570" = 47070570 ∧
    clean_money_value "N/A" = 0 := by
  refine ⟨by decide, by decide, by decide⟩

/-- **C6.** For every input string whose remainder after stripping does
not parse as an integer (the empty string included), currency
normalization never raises: `clean_currency` returns the sentinel `None`
and `clean_money_value` returns the sentinel `0`. -/
theorem currency_normalization_sentinel_total (s : String)
    (hc : pyInt (clean_currency_stripped s) = none)
    (hm : pyInt (clean_money_stripped s) = none) :
    clean_currency s = none ∧ clean_money_value s = 0 := by
  refine ⟨?_, ?_⟩
  · simp only [clean_currency, hc, ite_self]
  · simp only [clean_money_value, hm, ite_self]

/-- Witness for C6 at the unparsable input `"abc"` (and, via the theorem's
generality, the hypotheses are also checked concretely). -/
theorem currency_normalization_sentinel_total_witness :
    pyInt (clean_currency_stripped "abc") = none ∧
    pyInt (clean_money_stripped "abc") = none ∧
    clean_currency "abc" = none ∧ clean_money_value "abc" = 0 := by
  refine ⟨by decide, by decide, ?_, ?_⟩
  · exact (currency_normalization_sentinel_total "abc" (by decide) (by decide)).1
  · exact (currency_normalization_sentinel_total "abc" (by decide) (by decide)).2

/-! ## The salary scraper (`pay-to-lose/scrape.py`)

The Selenium driver and page are oracles: a `BrowserEnv` says whether
`webdriver.Chrome` succeeds, whether `driver.get` and the explicit wait
for `#table` succeed, and what rows the extraction JavaScript sees. -/

/-- One `<tr>` of the payroll table: the trimmed-on-read `textContent` of
each `<td>`, and the text of the `a.firstcol` anchor inside the first
cell when present. -/
structure SalaryRow where
  cellTexts : List String
  firstcol : Option String
deriving DecidableEq, Repr

/-- A raw record pushed by the JavaScript in `scrape_all_columns`. -/
structure RawTeamRecord where
  team_name : String
  club_code : String
  weekly_gross_gbp : String
  annual_gross_gbp : String
  adj_gross_gbp : String
  keeper_gbp : String
  defense_gbp : String
  midfield_gbp : String
  forward_gbp : String
deriving DecidableEq, Repr

/-- A record after `clean_data_money_columns`: the seven money columns
have become integers. -/
structure CleanTeamRecord where
  team_name : String
  club_code : String
  weekly_gross_gbp : Int
  annual_gross_gbp : Int
  adj_gross_gbp : Int
  keeper_gbp : Int
  defense_gbp : Int
  midfield_gbp : Int
  forward_gbp : Int
deriving DecidableEq, Repr

/-- The two-column record pushed by `scrape_team_salary_data`. -/
structure TeamSalaryRecord where
  team_name : String
  adj_gross_gbp : String
deriving DecidableEq, Repr

/-- `teamLink ? teamLink.textContent.trim() : 'N/A'`. -/
def teamNameOf (row : SalaryRow) : String :=
  match row.firstcol with
  | some t => strTrim t
  | none => "N/A"

/-- Body of the JavaScript row loop in `scrape_all_columns`: a row is
pushed exactly when it has at least 9 cells. -/
def extractSalaryRowAll (row : SalaryRow) : Option RawTeamRecord :=
  if h : 9 ≤ row.cellTexts.length then
    some
      { team_name := teamNameOf row
        club_code := strTrim (row.cellTexts.get ⟨1, by omega⟩)
        weekly_gross_gbp := strTrim (row.cellTexts.get ⟨2, by omega⟩)
        annual_gross_gbp := strTrim (row.cellTexts.get ⟨3, by omega⟩)
        adj_gross_gbp := strTrim (row.cellTexts.get ⟨4, by omega⟩)
        keeper_gbp := strTrim (row.cellTexts.get ⟨5, by omega⟩)
        defense_gbp := strTrim (row.cellTexts.get ⟨6, by omega⟩)
        midfield_gbp := strTrim (row.cellTexts.get ⟨7, by omega⟩)
        forward_gbp := strTrim (row.cellTexts.get ⟨8, by omega⟩) }
  else none

/-- Body of the JavaScript row loop in `scrape_team_salary_data`: a row is
pushed exactly when it has at least 5 cells. -/
def extractSalaryRow5 (row : SalaryRow) : Option TeamSalaryRecord :=
  if h : 5 ≤ row.cellTexts.length then
    some
      { team_name := teamNameOf row
        adj_gross_gbp := strTrim (row.cellTexts.get ⟨4, by omega⟩) }
  else none

/-- Events on the Selenium Chrome driver. -/
inductive DriverEv
  | acquire
  | release
deriving DecidableEq, Repr

/-- What the outside world answers to one fetch call: whether
`webdriver.Chrome(options)` succeeds, whether `driver.get(url)` and the
explicit wait for `#table` succeed, and the rows `execute_script` sees. -/
structure BrowserEnv where
  driverInit : Except String Unit
  navigate : Except String Unit
  waitTable : Except String Unit
  script : Except String (List SalaryRow)

/-- The `try` body shared by both fetch functions: `driver.get`, the wait
for the table, then `execute_script`; a raised step aborts the rest. -/
def tryBody (navigate waitTable : Except String Unit)
    (script : Except String (List SalaryRow)) :
    Except String (List SalaryRow) :=
  match navigate with
  | .error e => .error e
  | .ok _ =>
    match waitTable with
    | .error e => .error e
    | .ok _ => script

/-- `scrape_all_columns`.  `webdriver.Chrome` failing raises before any
driver exists; otherwise the driver is acquired, the `try` body runs, the
`except Exception` branch turns any raised step into a normal `[]`
return, and the `finally` releases the driver on both paths.  Returns the
call's outcome together with the trace of driver events. -/
def scrape_all_columns (env : BrowserEnv) :
    Except String (List RawTeamRecord) × List DriverEv :=
  match env.driverInit with
  | .error e => (.error e, [])
  | .ok _ =>
    match tryBody env.navigate env.waitTable env.script with
    | .error _ => (.ok [], [.acquire, .release])
    | .ok rows => (.ok (rows.filterMap extractSalaryRowAll), [.acquire, .release])

/-- `scrape_team_salary_data`: identical shape, but extracts only team
name and adjusted gross from rows with at least 5 cells. -/
def scrape_team_salary_data (env : BrowserEnv) :
    Except String (List TeamSalaryRecord) × List DriverEv :=
  match env.driverInit with
  | .error e => (.error e, [])
  | .ok _ =>
    match tryBody env.navigate env.waitTable env.script with
    | .error _ => (.ok [], [.acquire, .release])
    | .ok rows => (.ok (rows.filterMap extractSalaryRow5), [.acquire, .release])

/-- Per-record body of `clean_data_money_columns`: apply
`clean_money_value` to each of the seven money columns. -/
def clean_record (r : RawTeamRecord) : CleanTeamRecord :=
  { team_name := r.team_name
    club_code := r.club_code
    weekly_gross_gbp := clean_money_value r.weekly_gross_gbp
    annual_gross_gbp := clean_money_value r.annual_gross_gbp
    adj_gross_gbp := clean_money_value r.adj_gross_gbp
    keeper_gbp := clean_money_value r.keeper_gbp
    defense_gbp := clean_money_value r.defense_gbp
    midfield_gbp := clean_money_value r.midfield_gbp
    forward_gbp := clean_money_value r.forward_gbp }

/-- `clean_data_money_columns`. -/
def clean_data_money_columns (data : List RawTeamRecord) : List CleanTeamRecord :=
  data.map clean_record

/-- Console output of `scrape_multiple_seasons`: the per-unit banner, the
per-unit success message with its team count, and the per-unit error
message of the `except` branch. -/
inductive SeasonLog
  | scraping (season : String)
  | success (season : String) (teams : Nat)
  | errored (season : String)
deriving DecidableEq, Repr

/-- `scrape_multiple_seasons`: per season, format the URL, scrape it
(`world` gives the browser environment for each URL), clean the money
columns, tag each record with the season and extend the accumulator; an
exception raised by the scrape is caught at the per-season boundary and
the loop continues with the next season.  Returns the accumulated records
and the console log. -/
def scrape_multiple_seasons (world : String → BrowserEnv)
    (base_url : String → String) (seasons : List String) :
    List (CleanTeamRecord × String) × List SeasonLog :=
  seasons.foldl
    (fun acc season =>
      let season_url := base_url season
      match (scrape_all_columns (world season_url)).1 with
      | .error _ => (acc.1, acc.2 ++ [.scraping season, .errored season])
      | .ok raw =>
        let season_data := clean_data_money_columns raw
        let tagged := season_data.map (fun r => (r, season))
        (acc.1 ++ tagged, acc.2 ++ [.scraping season, .success season season_data.length]))
    ([], [])

/-- **C10.** On every exit path of the salary-scraper fetch functions the
driver events balance: either `webdriver.Chrome` itself raised and no
session ever existed (empty trace), or the session was acquired and the
`finally: driver.quit()` released it before the function returned — for
every combination of step outcomes, in both fetch functions. -/
theorem driver_released_on_every_exit_path (env : BrowserEnv) :
    ((scrape_all_columns env).2 = [] ∨
      (scrape_all_columns env).2 = [DriverEv.acquire, DriverEv.release]) ∧
    ((scrape_team_salary_data env).2 = [] ∨
      (scrape_team_salary_data env).2 = [DriverEv.acquire, DriverEv.release]) ∧
    (scrape_all_columns env).2.count DriverEv.release =
      (scrape_all_columns env).2.count DriverEv.acquire ∧
    (scrape_team_salary_data env).2.count DriverEv.release =
      (scrape_team_salary_data env).2.count DriverEv.acquire := by
  obtain ⟨di, nav, wt, sc⟩ := env
  cases di <;> cases nav <;> cases wt <;> cases sc <;>
    simp [scrape_all_columns, scrape_team_salary_data, tryBody]

/-- **C4.** For a work list of 3 seasons where scraping season 2 raises
(here: the driver fails to initialize, the one exception that escapes
`scrape_all_columns`), the per-season `try/except` boundary catches it
and the loop continues to season 3; the record set contains the cleaned,
season-tagged records of seasons 1 and 3 only, and the console log shows
3 units processed with exactly 1 failure. -/
theorem season_loop_skips_failed_unit
    (world : String → BrowserEnv) (base_url : String → String)
    (s1 s2 s3 : String) (rows1 rows3 : List SalaryRow) (e : String)
    (h1 : world (base_url s1) =
      { driverInit := .ok (), navigate := .ok (), waitTable := .ok (),
        script := .ok rows1 })
    (h2 : (world (base_url s2)).driverInit = .error e)
    (h3 : world (base_url s3) =
      { driverInit := .ok (), navigate := .ok (), waitTable := .ok (),
        script := .ok rows3 }) :
    (scrape_multiple_seasons world base_url [s1, s2, s3]).1 =
        (clean_data_money_columns (rows1.filterMap extractSalaryRowAll)).map
          (fun r => (r, s1)) ++
        (clean_data_money_columns (rows3.filterMap extractSalaryRowAll)).map
          (fun r => (r, s3)) ∧
    (scrape_multiple_seasons world base_url [s1, s2, s3]).2.countP
        (fun l => match l with | .scraping _ => true | _ => false) = 3 ∧
    (scrape_multiple_seasons world base_url [s1, s2, s3]).2.countP
        (fun l => match l with | .errored _ => true | _ => false) = 1 := by
  simp [scrape_multiple_seasons, scrape_all_columns, tryBody, h1, h2, h3,
    List.countP_cons]

/-- A concrete table row for the C4 witness. -/
def c4Row : SalaryRow :=
  { cellTexts := ["Arsenal", "ARS", "£1", "£2", "£3", "£4", "£5", "£6", "£7"]
    firstcol := some "Arsenal" }

/-- A concrete world for the C4 witness: season 2's URL fails to start
Chrome, the other two URLs scrape normally. -/
def c4World : String → BrowserEnv := fun url =>
  if url = "https://example.com/2013-2014/" then
    { driverInit := .ok (), navigate := .ok (), waitTable := .ok (),
      script := .ok [c4Row] }
  else if url = "https://example.com/2014-2015/" then
    { driverInit := .error "chrome failed", navigate := .ok (),
      waitTable := .ok (), script := .ok [] }
  else
    { driverInit := .ok (), navigate := .ok (), waitTable := .ok (),
      script := .ok [] }

/-- URL formatting for the C4 witness. -/
def c4BaseUrl : String → String := fun s => "https://example.com/" ++ s ++ "/"

/-- Witness for C4: three concrete seasons, the middle one raising; the
loop yields season 1 and season 3 records only, 3 units, 1 failure. -/
theorem season_loop_skips_failed_unit_witness :
    (scrape_multiple_seasons c4World c4BaseUrl
        ["2013-2014", "2014-2015", "2015-2016"]).1 =
        (clean_data_money_columns ([c4Row].filterMap extractSalaryRowAll)).map
          (fun r => (r, "2013-2014")) ++
        (clean_data_money_columns
            (([] : List SalaryRow).filterMap extractSalaryRowAll)).map
          (fun r => (r, "2015-2016")) ∧
    (scrape_multiple_seasons c4World c4BaseUrl
        ["2013-2014", "2014-2015", "2015-2016"]).2.countP
        (fun l => match l with | .scraping _ => true | _ => false) = 3 ∧
    (scrape_multiple_seasons c4World c4BaseUrl
        ["2013-2014", "2014-2015", "2015-2016"]).2.countP
        (fun l => match l with | .errored _ => true | _ => false) = 1 :=
  season_loop_skips_failed_unit c4World c4BaseUrl
    "2013-2014" "2014-2015" "2015-2016" [c4Row] [] "chrome failed"
    rfl rfl rfl

/-! ## IMDb extraction (`myfyf-10x-rule/imdb_scraper.py`)

The fetched pages are oracles; the BeautifulSoup queries are modelled by
the optional fields of the page structures. -/

/-- A per-metric division of the box-office summary: the inner
`div.a-column.a-span5.a-text-right.a-span-last` holding the value, when
present. -/
structure BoxDiv where
  value_div : Option String
deriving DecidableEq, Repr

/-- The `div#box_office_summary` container: each metric's section div,
when present. -/
structure BoxOfficeSummary where
  opening_wknd_summary : Option BoxDiv
  gross_world_summary : Option BoxDiv
  budget_summary : Option BoxDiv
  gross_usa_summary : Option BoxDiv
deriving DecidableEq, Repr

/-- A fetched movie page: the `div#box_office_summary` container, when
present. -/
structure MoviePage where
  box_office_summary : Option BoxOfficeSummary
deriving DecidableEq, Repr

/-- The record built by `extract_box_office_data` (the `year` key is added
later by `scrape_year`). -/
structure MovieData where
  title : String
  url : String
  opening_weekend : Option Int
  gross_world : Option Int
  budget : Option Int
  gross_usa_canada : Option Int
  year : Option Nat
deriving DecidableEq, Repr

/-- One metric of the section loop: if the section div and its value div
are both present, the trimmed value text run through `clean_currency`;
otherwise the field stays `None`. -/
def sectionValue (sec : Option BoxDiv) : Option Int :=
  match sec with
  | none => none
  | some d =>
    match d.value_div with
    | none => none
    | some t => clean_currency (strTrim t)

/-- `extract_box_office_data`: a failed fetch or a missing
`box_office_summary` container yields `None`; otherwise a record with the
given title and URL and the four optional metrics. -/
def extract_box_office_data : Option MoviePage → String → String → Option MovieData
  | none, _, _ => none
  | some page, movie_title, movie_url =>
    match page.box_office_summary with
    | none => none
    | some sec =>
      some
        { title := movie_title
          url := movie_url
          opening_weekend := sectionValue sec.opening_wknd_summary
          gross_world := sectionValue sec.gross_world_summary
          budget := sectionValue sec.budget_summary
          gross_usa_canada := sectionValue sec.gross_usa_summary
          year := none }

/-- `startsWithChars p q`: the list `q` begins with `p`. -/
def startsWithChars : List Char → List Char → Bool
  | [], _ => true
  | _ :: _, [] => false
  | p :: ps, c :: cs => p == c && startsWithChars ps cs

/-- Python's `in` on strings: `pat` occurs as a contiguous substring. -/
def containsSub (pat : List Char) : List Char → Bool
  | [] => startsWithChars pat []
  | c :: cs => startsWithChars pat (c :: cs) || containsSub pat cs

/-- An `a.a-link-normal` anchor found on the yearly box-office page. -/
structure YearPageLink where
  href : Option String
  text : String
deriving DecidableEq, Repr

/-- `extract_movie_links`, with the fetch of the year page an oracle and
`urljoin` a parameter (a `urllib` collaborator): a fetch failure yields
`[]`; otherwise keep the anchors whose `href` contains `/releasegroup/`
as `(trimmed text, joined url)` pairs. -/
def extract_movie_links (join : String → String → String) (base_url : String)
    (fetchYear : Option (List YearPageLink)) : List (String × String) :=
  match fetchYear with
  | none => []
  | some links =>
    links.filterMap (fun l =>
      match l.href with
      | some href =>
        if containsSub "/releasegroup/".toList href.toList then
          some (strTrim l.text, join base_url href)
        else none
      | none => none)

/-- `scrape_year`: extract the movie links from the year page, then for
each `(title, url)` extract box-office data and append the record — with
the year added — exactly when extraction returned data. -/
def scrape_year (join : String → String → String) (base_url : String)
    (fetchYear : Option (List YearPageLink))
    (fetchMovie : String → Option MoviePage) (year : Nat) : List MovieData :=
  (extract_movie_links join base_url fetchYear).filterMap (fun tu =>
    (extract_box_office_data (fetchMovie tu.2) tu.1 tu.2).map
      (fun d => { d with year := some year }))

/-- If the shared `try` body of the salary fetchers succeeds, the rows it
returns are exactly what `execute_script` returned. -/
theorem tryBody_ok {navigate waitTable : Except String Unit}
    {script : Except String (List SalaryRow)} {rows : List SalaryRow}
    (h : tryBody navigate waitTable script = .ok rows) :
    script = .ok rows := by
  cases navigate with
  | error e => simp [tryBody] at h
  | ok _ =>
    cases waitTable with
    | error e => simp [tryBody] at h
    | ok _ => simpa [tryBody] using h

/-- The row refuting C3 as stated: the full complement of 9 cells, but no
`a.firstcol` anchor carrying the team name. -/
def c3Row : SalaryRow :=
  { cellTexts := ["", "UNK", "£1", "£2", "£3", "£4", "£5", "£6", "£7"]
    firstcol := none }

/-- **C3, counterexample.** On a page whose single row has 9 cells but no
team-name anchor, `scrape_all_columns` still appends a record — with the
placeholder `'N/A'` as team name — so "a record is appended only if
extraction succeeded for its primary identifying field" is false of the
salary scraper. -/
theorem record_appended_without_team_name :
    c3Row.firstcol = none ∧
    (scrape_all_columns
        { driverInit := .ok (), navigate := .ok (), waitTable := .ok (),
          script := .ok [c3Row] }).1 =
      .ok [{ team_name := "N/A", club_code := "UNK",
             weekly_gross_gbp := "£1", annual_gross_gbp := "£2",
             adj_gross_gbp := "£3", keeper_gbp := "£4", defense_gbp := "£5",
             midfield_gbp := "£6", forward_gbp := "£7" }] :=
  ⟨rfl, rfl⟩

/-- **C3, amended.** Pages whose fetch fails or whose expected top-level
container is absent contribute no record in either scraper; the IMDb
scraper appends a record only when the movie page was fetched and its
box-office container found; the salary scraper, however, appends a record
for every row with the full complement of cells, substituting the
placeholder `'N/A'` for the team name when the team-name anchor is
absent. -/
theorem record_only_after_successful_extraction :
    (∀ (join : String → String → String) (base_url : String)
        (fetchYear : Option (List YearPageLink))
        (fetchMovie : String → Option MoviePage) (year : Nat) (d : MovieData),
      d ∈ scrape_year join base_url fetchYear fetchMovie year →
      ∃ page sec, fetchMovie d.url = some page ∧
        page.box_office_summary = some sec) ∧
    (∀ movie_title movie_url : String,
      extract_box_office_data none movie_title movie_url = none) ∧
    (∀ (page : MoviePage) (movie_title movie_url : String),
      page.box_office_summary = none →
      extract_box_office_data (some page) movie_title movie_url = none) ∧
    (∀ (env : BrowserEnv) (e : String),
      tryBody env.navigate env.waitTable env.script = .error e →
      (scrape_all_columns env).1 = .ok [] ∨
        ∃ e', (scrape_all_columns env).1 = .error e') ∧
    (∀ (env : BrowserEnv) (recs : List RawTeamRecord) (rec : RawTeamRecord),
      (scrape_all_columns env).1 = .ok recs → rec ∈ recs →
      ∃ rows row, env.script = .ok rows ∧ row ∈ rows ∧
        extractSalaryRowAll row = some rec) ∧
    (∀ (row : SalaryRow) (rec : RawTeamRecord),
      extractSalaryRowAll row = some rec →
      9 ≤ row.cellTexts.length ∧ rec.team_name = teamNameOf row) ∧
    (∀ (row : SalaryRow) (rec : RawTeamRecord),
      extractSalaryRowAll row = some rec → row.firstcol = none →
      rec.team_name = "N/A") := by
  refine ⟨?_, ?_, ?_, ?_, ?_, ?_, ?_⟩
  · intro join base_url fetchYear fetchMovie year d hd
    obtain ⟨tu, _, heq⟩ := List.mem_filterMap.1 hd
    obtain ⟨d', hd', rfl⟩ := Option.map_eq_some'.1 heq
    cases hfm : fetchMovie tu.2 with
    | none => rw [hfm] at hd'; simp [extract_box_office_data] at hd'
    | some page =>
      rw [hfm] at hd'
      cases hsec : page.box_office_summary with
      | none => simp [extract_box_office_data, hsec] at hd'
      | some sec =>
        simp only [extract_box_office_data, hsec, Option.some_inj] at hd'
        refine ⟨page, sec, ?_, hsec⟩
        have hurl : d'.url = tu.2 := by rw [← hd']
        simpa [hurl] using hfm
  · intro _ _; rfl
  · intro page movie_title movie_url h
    simp [extract_box_office_data, h]
  · intro env e he
    obtain ⟨di, nav, wt, sc⟩ := env
    cases di with
    | error e' => exact Or.inr ⟨e', by simp [scrape_all_columns]⟩
    | ok _ => exact Or.inl (by simp [scrape_all_columns, he])
  · intro env recs rec hok hmem
    obtain ⟨di, nav, wt, sc⟩ := env
    cases di with
    | error e' => simp [scrape_all_columns] at hok
    | ok _ =>
      cases htb : tryBody nav wt sc with
      | error e' =>
        simp only [scrape_all_columns, htb] at hok
        obtain rfl := Except.ok.inj hok
        cases hmem
      | ok rows =>
        simp only [scrape_all_columns, htb] at hok
        obtain rfl := Except.ok.inj hok
        obtain ⟨row, hrow, hex⟩ := List.mem_filterMap.1 hmem
        exact ⟨rows, row, tryBody_ok htb, hrow, hex⟩
  · intro row rec h
    rw [extractSalaryRowAll] at h
    split at h
    · next h9 => cases h; exact ⟨h9, rfl⟩
    · cases h
  · intro row rec h hfc
    rw [extractSalaryRowAll] at h
    split at h
    · cases h; rw [teamNameOf, hfc]
    · cases h

/-- A concrete box-office summary for the C3 witness. -/
def c3Sec : BoxOfficeSummary :=
  { opening_wknd_summary := some { value_div := some "$1,000" }
    gross_world_summary := none
    budget_summary := none
    gross_usa_summary := none }

/-- A concrete fetch oracle for movie pages in the C3 witness. -/
def c3FetchMovie : String → Option MoviePage :=
  fun _ => some { box_office_summary := some c3Sec }

/-- A concrete year page for the C3 witness. -/
def c3FetchYear : Option (List YearPageLink) :=
  some [{ href := some "/title/tt1/releasegroup/", text := " Movie A " }]

/-- Plain concatenation standing in for `urljoin` in the C3 witness. -/
def c3Join : String → String → String := fun b h => b ++ h

/-- The record `scrape_year` produces in the C3 witness. -/
def c3Movie : MovieData :=
  { title := "Movie A"
    url := "https://pro.imdb.com/title/tt1/releasegroup/"
    opening_weekend := some 1000
    gross_world := none
    budget := none
    gross_usa_canada := none
    year := some 2000 }

/-- The record the salary scraper appends for the anchor-less row. -/
def c3RecNA : RawTeamRecord :=
  { team_name := "N/A", club_code := "UNK", weekly_gross_gbp := "£1",
    annual_gross_gbp := "£2", adj_gross_gbp := "£3", keeper_gbp := "£4",
    defense_gbp := "£5", midfield_gbp := "£6", forward_gbp := "£7" }

/-- Witness for the amended C3, instantiating every part of the theorem
at concrete pages, rows and records. -/
theorem record_only_after_successful_extraction_witness :
    (∃ page sec, c3FetchMovie c3Movie.url = some page ∧
      page.box_office_summary = some sec) ∧
    extract_box_office_data none "T" "U" = none ∧
    extract_box_office_data (some { box_office_summary := none }) "T" "U" = none ∧
    ((scrape_all_columns
        { driverInit := .ok (), navigate := .error "dns failure",
          waitTable := .ok (), script := .ok [] }).1 = .ok [] ∨
      ∃ e', (scrape_all_columns
        { driverInit := .ok (), navigate := .error "dns failure",
          waitTable := .ok (), script := .ok [] }).1 = .error e') ∧
    (∃ rows row,
      ({ driverInit := .ok (), navigate := .ok (), waitTable := .ok (),
          script := .ok [c3Row] } : BrowserEnv).script = .ok rows ∧
      row ∈ rows ∧ extractSalaryRowAll row = some c3RecNA) ∧
    (9 ≤ c3Row.cellTexts.length ∧ c3RecNA.team_name = teamNameOf c3Row) ∧
    c3RecNA.team_name = "N/A" :=
  ⟨record_only_after_successful_extraction.1 c3Join "https://pro.imdb.com"
      c3FetchYear c3FetchMovie 2000 c3Movie (by decide),
    record_only_after_successful_extraction.2.1 "T" "U",
    record_only_after_successful_extraction.2.2.1
      { box_office_summary := none } "T" "U" rfl,
    record_only_after_successful_extraction.2.2.2.1
      { driverInit := .ok (), navigate := .error "dns failure",
        waitTable := .ok (), script := .ok [] } "dns failure" rfl,
    record_only_after_successful_extraction.2.2.2.2.1
      { driverInit := .ok (), navigate := .ok (), waitTable := .ok (),
        script := .ok [c3Row] } [c3RecNA] c3RecNA rfl (by simp),
    record_only_after_successful_extraction.2.2.2.2.2.1 c3Row c3RecNA rfl,
    record_only_after_successful_extraction.2.2.2.2.2.2 c3Row c3RecNA rfl rfl⟩

/-! ## The CSV merge utility (`prem-home-invasion/merge_files.py`)

The pandas date parsers are oracles (`tryParse fmt s` is
`pd.to_datetime(s, format=fmt, errors='coerce')` on one entry, `infer` the
`dayfirst=True` auto-inference fallback); a data row is its raw `Date`
cell paired with the rest of the row, abstracted as `β`. -/

/-- A parsed calendar date (the date part of a pandas timestamp). -/
structure PLDate where
  year : Nat
  month : Nat
  day : Nat
deriving DecidableEq, Repr

/-- The fixed ordered list of formats `parse_date_column` tries. -/
def formats_to_try : List String :=
  ["%d/%m/%Y", "%d/%m/%y", "%Y-%m-%d", "%d-%m-%Y", "%d %b %Y"]

/-- Number of entries of the column a format parses
(`parsed.notna().sum()`). -/
def successCount {β : Type} (tryParse : String → String → Option PLDate)
    (fmt : String) (df : List (String × β)) : Nat :=
  (df.filter (fun r => (tryParse fmt r.1).isSome)).length

/-- The `parse_date_column` normalizer.  The first format whose success
count is positive and at least 90% of the rows is committed and applied
entrywise; otherwise every entry goes through the auto-inference
fallback.  Unparsed entries become missing (`none`); the rest of each row
is untouched.  (The source's float threshold `len(df) * 0.9` is modelled
by the exact comparison `9 * length ≤ 10 * successes`.) -/
def parse_date_column {β : Type} (tryParse : String → String → Option PLDate)
    (infer : String → Option PLDate) (df : List (String × β)) :
    List (Option PLDate × β) :=
  match formats_to_try.find? (fun fmt =>
      decide (0 < successCount tryParse fmt df) &&
        decide (9 * df.length ≤ 10 * successCount tryParse fmt df)) with
  | some fmt => df.map (fun r => (tryParse fmt r.1, r.2))
  | none => df.map (fun r => (infer r.1, r.2))

/-- The season lambda of the merge step:
`x.year + 1 if x.month >= 8 else x.year`. -/
def season_of (d : PLDate) : Nat :=
  if 8 ≤ d.month then d.year + 1 else d.year

/-- Date comparison backing `sort_values('Date')`. -/
def dateLe (a b : PLDate) : Bool :=
  decide (a.year < b.year) ||
    (decide (a.year = b.year) &&
      (decide (a.month < b.month) ||
        (decide (a.month = b.month) && decide (a.day ≤ b.day))))

/-- Insertion into a list sorted by `le`. -/
def insertByLe {α : Type} (le : α → α → Bool) (x : α) : List α → List α
  | [] => [x]
  | y :: ys => if le x y then x :: y :: ys else y :: insertByLe le x ys

/-- Insertion sort by `le`, modelling `sort_values`. -/
def sortByLe {α : Type} (le : α → α → Bool) : List α → List α
  | [] => []
  | x :: xs => insertByLe le x (sortByLe le xs)

/-- Membership is preserved by sorted insertion. -/
theorem mem_insertByLe {α : Type} (le : α → α → Bool) (x a : α) :
    ∀ l : List α, a ∈ insertByLe le x l ↔ a = x ∨ a ∈ l := by
  intro l
  induction l with
  | nil => simp [insertByLe]
  | cons y ys ih =>
    rw [insertByLe]
    by_cases h : le x y
    · simp [h]
    · simp only [if_neg h, List.mem_cons, ih]
      tauto

/-- Sorting permutes, so it preserves membership. -/
theorem mem_sortByLe {α : Type} (le : α → α → Bool) (a : α) :
    ∀ l : List α, a ∈ sortByLe le l ↔ a ∈ l := by
  intro l
  induction l with
  | nil => simp [sortByLe]
  | cons x xs ih => simp [sortByLe, mem_insertByLe, ih]

/-- The loading loop of `merge_premier_league_data`: for each `i` in
`4..36`, if `E0 (i).csv` exists (`fs i = some …`) and reads without
raising (`… (.ok df)`), parse its date column and collect the frame;
missing files and read errors are skipped. -/
def load_dataframes {β : Type}
    (fs : Nat → Option (Except String (List (String × β))))
    (tryParse : String → String → Option PLDate)
    (infer : String → Option PLDate) : List (List (Option PLDate × β)) :=
  (List.range' 4 33).filterMap (fun i =>
    match fs i with
    | none => none
    | some (.error _) => none
    | some (.ok df) => some (parse_date_column tryParse infer df))

/-- The `merge_premier_league_data` pipeline: load the frames,
concatenate them, drop the rows whose date is missing, add the `Season`
column, sort by date.  `none` models the "No data files loaded — exiting"
early return. -/
def merge_premier_league_data {β : Type}
    (fs : Nat → Option (Except String (List (String × β))))
    (tryParse : String → String → Option PLDate)
    (infer : String → Option PLDate) : Option (List (PLDate × β × Nat)) :=
  let dataframes := load_dataframes fs tryParse infer
  if dataframes.isEmpty then none
  else
    let merged := dataframes.flatten
    let kept := merged.filterMap (fun r => r.1.map (fun d => (d, r.2)))
    let withSeason := kept.map (fun dr => (dr.1, dr.2, season_of dr.1))
    some (sortByLe (fun a b => dateLe a.1 b.1) withSeason)

/-- Two pointwise-equal predicates find the same first element. -/
theorem find?_congr_pointwise {α : Type} (p q : α → Bool) :
    ∀ l : List α, (∀ a ∈ l, p a = q a) → l.find? p = l.find? q := by
  intro l
  induction l with
  | nil => intro _; rfl
  | cons a l ih =>
    intro h
    have ha : p a = q a := h a (List.mem_cons_self a l)
    have ih' := ih (fun b hb => h b (List.mem_cons_of_mem a hb))
    cases hqa : q a with
    | false =>
      rw [List.find?_cons_of_neg _ (by simp [ha, hqa]),
        List.find?_cons_of_neg _ (by simp [hqa]), ih']
    | true =>
      rw [List.find?_cons_of_pos _ (by simp [ha, hqa]),
        List.find?_cons_of_pos _ (by simp [hqa])]

/-- **C9.** The date normalizer only marks unparsable entries as missing
and never removes rows: for every input table it returns a table with the
same number of rows, and everything except the `Date` column is
unchanged.  (Rows with missing dates are dropped only later, by
`merge_premier_league_data`.) -/
theorem parse_date_column_preserves_rows {β : Type}
    (tryParse : String → String → Option PLDate)
    (infer : String → Option PLDate) (df : List (String × β)) :
    (parse_date_column tryParse infer df).length = df.length ∧
    (parse_date_column tryParse infer df).map Prod.snd = df.map Prod.snd := by
  have hmap : ∀ g : String → Option PLDate,
      (df.map (fun r => (g r.1, r.2))).map Prod.snd = df.map Prod.snd := by
    intro g
    induction df with
    | nil => rfl
    | cons a l ih => simp only [List.map_cons, ih]
  unfold parse_date_column
  cases formats_to_try.find? _ with
  | none => exact ⟨by simp, hmap infer⟩
  | some fmt => exact ⟨by simp, hmap (tryParse fmt)⟩

/-- **C7.** On a nonempty column, `parse_date_column` commits to the
first format of its fixed ordered list whose successful parse rate is at
least 90%: the whole column is then parsed with that format, and the
entries that format cannot parse are marked missing rather than parsed
into arbitrary dates. -/
theorem parse_date_column_commits_first_90pct {β : Type}
    (tryParse : String → String → Option PLDate)
    (infer : String → Option PLDate) (df : List (String × β))
    (hne : df ≠ []) (fmt : String)
    (hfind : formats_to_try.find? (fun f =>
        decide (9 * df.length ≤ 10 * successCount tryParse f df)) = some fmt) :
    parse_date_column tryParse infer df =
      df.map (fun r => (tryParse fmt r.1, r.2)) ∧
    ∀ r ∈ df, tryParse fmt r.1 = none →
      (none, r.2) ∈ parse_date_column tryParse infer df := by
  have hlen : 0 < df.length := List.length_pos.2 hne
  have hpred : ∀ f ∈ formats_to_try,
      (decide (0 < successCount tryParse f df) &&
        decide (9 * df.length ≤ 10 * successCount tryParse f df)) =
      decide (9 * df.length ≤ 10 * successCount tryParse f df) := by
    intro f _
    by_cases h : 9 * df.length ≤ 10 * successCount tryParse f df
    · have hpos : 0 < successCount tryParse f df := by omega
      simp [h, hpos]
    · simp [h]
  have heq : parse_date_column tryParse infer df =
      df.map (fun r => (tryParse fmt r.1, r.2)) := by
    unfold parse_date_column
    rw [find?_congr_pointwise _ _ formats_to_try hpred, hfind]
  refine ⟨heq, ?_⟩
  intro r hr hnone
  rw [heq]
  exact List.mem_map.2 ⟨r, hr, by rw [hnone]⟩

/-- A column for the C7 witness: 19 entries in `%d/%m/%Y` shape and one
garbage entry (a 95% / 5% split). -/
def c7df : List (String × Nat) :=
  (List.replicate 19 ("05/08/2020", 0)) ++ [("garbage", 19)]

/-- A concrete date-parsing oracle for the C7 witness. -/
def c7Parse : String → String → Option PLDate := fun f s =>
  if f = "%d/%m/%Y" && s = "05/08/2020" then some ⟨2020, 8, 5⟩ else none

/-- A fallback oracle for the C7 witness that parses nothing. -/
def c7Infer : String → Option PLDate := fun _ => none

/-- Witness for C7: on the 95%-matching column the first format is
selected, the column is parsed with it, and the garbage entry is marked
missing. -/
theorem parse_date_column_commits_first_90pct_witness :
    c7df ≠ [] ∧
    formats_to_try.find? (fun f =>
      decide (9 * c7df.length ≤ 10 * successCount c7Parse f c7df)) =
        some "%d/%m/%Y" ∧
    parse_date_column c7Parse c7Infer c7df =
      c7df.map (fun r => (c7Parse "%d/%m/%Y" r.1, r.2)) ∧
    (none, 19) ∈ parse_date_column c7Parse c7Infer c7df := by
  have h := parse_date_column_commits_first_90pct c7Parse c7Infer c7df
    (by decide) "%d/%m/%Y" (by decide)
  exact ⟨by decide, by decide, h.1, h.2 ("garbage", 19) (by decide) (by decide)⟩

/-- **C8.** With exactly the files `E0 (7).csv`, `E0 (15).csv`,
`E0 (30).csv` present among the candidates `E0 (4..36).csv`, the merge
step loads exactly those three frames in order, concatenates their rows,
drops the rows whose dates remain unparsable, assigns to every remaining
row a season label equal to `year + 1` when the month is August or later
and `year` otherwise, and sorts by date. -/
theorem merge_loads_exactly_present_files {β : Type}
    (fs : Nat → Option (Except String (List (String × β))))
    (tryParse : String → String → Option PLDate)
    (infer : String → Option PLDate) (d7 d15 d30 : List (String × β))
    (hfs : ∀ i, fs i =
      if i = 7 then some (.ok d7) else if i = 15 then some (.ok d15)
      else if i = 30 then some (.ok d30) else none) :
    load_dataframes fs tryParse infer =
      [parse_date_column tryParse infer d7, parse_date_column tryParse infer d15,
        parse_date_column tryParse infer d30] ∧
    merge_premier_league_data fs tryParse infer =
      some (sortByLe (fun a b => dateLe a.1 b.1)
        (((parse_date_column tryParse infer d7 ++
            (parse_date_column tryParse infer d15 ++
              parse_date_column tryParse infer d30)).filterMap
          (fun r => r.1.map (fun d => (d, r.2)))).map
          (fun dr => (dr.1, dr.2, season_of dr.1)))) ∧
    (∀ out, merge_premier_league_data fs tryParse infer = some out →
      ∀ row ∈ out, row.2.2 =
        if 8 ≤ row.1.month then row.1.year + 1 else row.1.year) := by
  have hload : load_dataframes fs tryParse infer =
      [parse_date_column tryParse infer d7, parse_date_column tryParse infer d15,
        parse_date_column tryParse infer d30] := by
    unfold load_dataframes
    rw [show List.range' 4 33 =
      [4, 5, 6, 7, 8, 9, 10, 11, 12, 13, 14, 15, 16, 17, 18, 19, 20, 21, 22,
        23, 24, 25, 26, 27, 28, 29, 30, 31, 32, 33, 34, 35, 36] from rfl]
    simp [hfs]
  have hmerge : merge_premier_league_data fs tryParse infer =
      some (sortByLe (fun a b => dateLe a.1 b.1)
        (((parse_date_column tryParse infer d7 ++
            (parse_date_column tryParse infer d15 ++
              parse_date_column tryParse infer d30)).filterMap
          (fun r => r.1.map (fun d => (d, r.2)))).map
          (fun dr => (dr.1, dr.2, season_of dr.1)))) := by
    simp [merge_premier_league_data, hload]
  refine ⟨hload, hmerge, ?_⟩
  intro out hout row hrow
  rw [hmerge] at hout
  obtain rfl := Option.some_inj.1 hout
  rw [mem_sortByLe] at hrow
  obtain ⟨dr, _, rfl⟩ := List.mem_map.1 hrow
  simp [season_of]

/-- Frame 7 for the C8 witness: one row dated before the new season. -/
def c8D7 : List (String × Unit) := [("05/08/2020", ())]

/-- Frame 15 for the C8 witness: one row dated after New Year. -/
def c8D15 : List (String × Unit) := [("05/03/2021", ())]

/-- Frame 30 for the C8 witness: one unparsable row (to be dropped). -/
def c8D30 : List (String × Unit) := [("bad", ())]

/-- A concrete date-parsing oracle for the C8 witness. -/
def c8Parse : String → String → Option PLDate := fun f s =>
  if f = "%d/%m/%Y" then
    if s = "05/08/2020" then some ⟨2020, 8, 5⟩
    else if s = "05/03/2021" then some ⟨2021, 3, 5⟩
    else none
  else none

/-- A fallback oracle for the C8 witness that parses nothing. -/
def c8Infer : String → Option PLDate := fun _ => none

/-- The filesystem for the C8 witness: exactly files 7, 15 and 30 exist. -/
def c8Fs : Nat → Option (Except String (List (String × Unit))) := fun i =>
  if i = 7 then some (.ok c8D7) else if i = 15 then some (.ok c8D15)
  else if i = 30 then some (.ok c8D30) else none

/-- Witness for C8: on the concrete three-file filesystem the merge loads
the three frames, drops the unparsable row of file 30, labels the August
2020 row with season 2021 and the March 2021 row with season 2021, and
sorts them by date. -/
theorem merge_loads_exactly_present_files_witness :
    load_dataframes c8Fs c8Parse c8Infer =
      [parse_date_column c8Parse c8Infer c8D7,
        parse_date_column c8Parse c8Infer c8D15,
        parse_date_column c8Parse c8Infer c8D30] ∧
    merge_premier_league_data c8Fs c8Parse c8Infer =
      some [(⟨2020, 8, 5⟩, (), 2021), (⟨2021, 3, 5⟩, (), 2021)] := by
  have h := merge_loads_exactly_present_files c8Fs c8Parse c8Infer
    c8D7 c8D15 c8D30 (fun i => rfl)
  exact ⟨h.1, by rw [h.2.1]; decide⟩

end BetweenTheLines
